import Mathlib

/-!
Verification of the stream-layer and listener code of the mosn repository.

The Go sources are shallowly embedded:
* package `types` (stream interfaces and enumerations) is embedded in
  namespace `MosnTypes`: Go string-typed enumeration constants become
  `String` definitions, and the relevant interface method signatures are
  embedded as data (argument/return shape records), since the file
  declares only interfaces;
* `pkg/network/listener.go` is embedded in namespace `MosnNetwork`:
  the `listener` struct becomes a Lean structure, methods become pure
  functions from listener state (plus oracles for external I/O results
  such as `net.TCPListener.Accept`) to a result paired with the trace of
  callback invocations they perform.
-/

namespace MosnTypes

/-! ## StreamResetReason (part_000 lines 68-76)

`type StreamResetReason string` with five declared constants; each Lean
definition carries the exact Go string value. -/

def StreamConnectionTermination : String := "ConnectionTermination"

def StreamConnectionFailed : String := "ConnectionFailed"

def StreamLocalReset : String := "StreamLocalReset"

def StreamOverflow : String := "StreamOverflow"

def StreamRemoteReset : String := "StreamRemoteReset"

/-- The values of the declared `StreamResetReason` constants, in source
order. -/
def streamResetReasonValues : List String :=
  [StreamConnectionTermination, StreamConnectionFailed, StreamLocalReset,
   StreamOverflow, StreamRemoteReset]

/-! ## Filter status enumerations (part_000 lines 291-312) -/

def FilterHeadersStatusContinue : String := "Continue"

def FilterHeadersStatusStopIteration : String := "StopIteration"

/-- The values of the declared `FilterHeadersStatus` constants, in source
order. -/
def filterHeadersStatusValues : List String :=
  [FilterHeadersStatusContinue, FilterHeadersStatusStopIteration]

def FilterDataStatusContinue : String := "Continue"

def FilterDataStatusStopIterationAndBuffer : String := "StopIterationAndBuffer"

def FilterDataStatusStopIterationAndWatermark : String := "StopIterationAndWatermark"

def FilterDataStatusStopIterationNoBuffer : String := "StopIterationNoBuffer"

/-- The values of the declared `FilterDataStatus` constants, in source
order. -/
def filterDataStatusValues : List String :=
  [FilterDataStatusContinue, FilterDataStatusStopIterationAndBuffer,
   FilterDataStatusStopIterationAndWatermark, FilterDataStatusStopIterationNoBuffer]

def FilterTrailersStatusContinue : String := "Continue"

def FilterTrailersStatusStopIteration : String := "StopIteration"

/-- The values of the declared `FilterTrailersStatus` constants, in source
order. -/
def filterTrailersStatusValues : List String :=
  [FilterTrailersStatusContinue, FilterTrailersStatusStopIteration]

/-! ## Interface method signatures

Go interface declarations carry no executable code, only signatures, so
the signature shape relevant to the claims is embedded as data. -/

/-- The Go return shape of an interface method: returns an `error`,
returns nothing, or returns some other (non-error) type. -/
inductive GoReturn
  | goError
  | goNone
  | goOther (typeName : String)
deriving DecidableEq, Repr

/-- A method of a Go interface: its name and return shape. -/
structure MethodSig where
  name : String
  ret : GoReturn
deriving DecidableEq, Repr

/-- The methods of `StreamEncoder` (part_000 lines 105-120):
`EncodeHeaders(headers interface\x7b\x7d, endStream bool) error`,
`EncodeData(data IoBuffer, endStream bool) error`,
`EncodeTrailers(trailers map[string]string) error`,
`GetStream() Stream`. -/
def streamEncoderMethods : List MethodSig :=
  [⟨"EncodeHeaders", .goError⟩,
   ⟨"EncodeData", .goError⟩,
   ⟨"EncodeTrailers", .goError⟩,
   ⟨"GetStream", .goOther "Stream"⟩]

/-- The three frame-emitting methods of `StreamEncoder` (the claim's
subject; `GetStream` is a correlation accessor, not a frame method). -/
def streamEncoderFrameMethods : List MethodSig :=
  [⟨"EncodeHeaders", .goError⟩,
   ⟨"EncodeData", .goError⟩,
   ⟨"EncodeTrailers", .goError⟩]

/-- The methods of `StreamDecoder` (part_000 lines 122-134):
`OnDecodeHeaders(headers map[string]string, endStream bool)`,
`OnDecodeData(data IoBuffer, endStream bool)`,
`OnDecodeTrailers(trailers map[string]string)` — none declares a return
value. -/
def streamDecoderMethods : List MethodSig :=
  [⟨"OnDecodeHeaders", .goNone⟩,
   ⟨"OnDecodeData", .goNone⟩,
   ⟨"OnDecodeTrailers", .goNone⟩]

/-- The methods of `StreamEventListener` (part_000 lines 94-103). -/
def streamEventListenerMethods : List MethodSig :=
  [⟨"OnResetStream", .goNone⟩,
   ⟨"OnAboveWriteBufferHighWatermark", .goNone⟩,
   ⟨"OnBelowWriteBufferLowWatermark", .goNone⟩]

/-- One half of a stream's data path: the sender role or the receiver
role. -/
inductive StreamHalf
  | encoder
  | decoder
deriving DecidableEq, Repr

/-- The shape of a `NewStream` factory method: which stream half the
caller supplies as the second argument, and which half is returned. -/
structure NewStreamSig where
  suppliedArg : StreamHalf
  returned : StreamHalf
deriving DecidableEq, Repr

/-- `ClientStreamConnection.NewStream(streamId string, responseDecoder
StreamDecoder) StreamEncoder` (part_000 line 166): the caller supplies a
`StreamDecoder` and receives a `StreamEncoder`. -/
def clientNewStreamSig : NewStreamSig :=
  { suppliedArg := .decoder, returned := .encoder }

/-- `ServerStreamConnectionEventListener.NewStream(streamId string,
responseEncoder StreamEncoder) StreamDecoder` (part_000 line 180): the
callee is supplied a `StreamEncoder` and returns a `StreamDecoder`. -/
def serverNewStreamSig : NewStreamSig :=
  { suppliedArg := .encoder, returned := .decoder }

end MosnTypes

namespace MosnNetwork

/-! ## pkg/network/listener.go

External collaborators are abstracted as type parameters, kept to one
letter: `A` for `net.Addr`, `T` for `*net.TCPListener`, `N` for the
accepted `net.Conn`, `C` for the `types.ListenerEventListener` callback
object, `E` for Go's `error` interface. Methods that perform callback
invocations or I/O return, alongside their Go result, the ordered trace
of externally observable actions they perform; results of external calls
(`net.ListenTCP`, `rawl.Accept`, `rawl.Close`) are supplied as oracle
arguments. -/

/-- The fields of `v2.ListenerConfig` that `NewListener` reads. -/
structure ListenerConfig (A T : Type) where
  Name : String
  Addr : A
  BindToPort : Bool
  ListenerTag : Nat
  PerConnBufferLimitBytes : Nat
  HandOffRestoredDestinationConnections : Bool
  InheritListener : Option T
deriving DecidableEq, Repr

/-- The `listener` struct (listener.go lines 18-27). `cb` and `rawl` are
interface/pointer fields in Go, `nil` until set, hence `Option`. -/
structure Listener (A T C : Type) where
  name : String
  localAddress : A
  bindToPort : Bool
  listenerTag : Nat
  perConnBufferLimitBytes : Nat
  handOffRestoredDestinationConnections : Bool
  cb : Option C
  rawl : Option T
deriving DecidableEq, Repr

/-- An externally observable action the listener performs: invoking the
registered callback's `OnAccept` / `OnClose`, or calling into the raw
TCP listener. -/
inductive ListenerAction (N T : Type)
  | onAccept (rawc : N) (handOffRestoredDestination : Bool)
  | onClose
  | rawlClose
  | listenTCP
  | acceptLoopEntered
deriving DecidableEq, Repr

/-- `NewListener` (listener.go lines 29-45): copies the config fields;
`l.rawl` is set to `lc.InheritListener` when that is non-nil and stays
nil otherwise (in Go the field starts at its zero value `nil`, so both
branches collapse to a copy of the `Option`); `cb` starts nil. -/
def NewListener {A T C : Type} (lc : ListenerConfig A T) : Listener A T C :=
  { name := lc.Name
    localAddress := lc.Addr
    bindToPort := lc.BindToPort
    listenerTag := lc.ListenerTag
    perConnBufferLimitBytes := lc.PerConnBufferLimitBytes
    handOffRestoredDestinationConnections := lc.HandOffRestoredDestinationConnections
    cb := none
    rawl := lc.InheritListener }

/-- `listener.Name` (lines 66-68). -/
def Listener.Name {A T C : Type} (l : Listener A T C) : String :=
  l.name

/-- `listener.Addr` (lines 70-72). -/
def Listener.Addr {A T C : Type} (l : Listener A T C) : A :=
  l.localAddress

/-- `listener.ListenerTag` (lines 128-130). -/
def Listener.ListenerTag {A T C : Type} (l : Listener A T C) : Nat :=
  l.listenerTag

/-- `listener.PerConnBufferLimitBytes` (lines 141-143). -/
def Listener.PerConnBufferLimitBytes {A T C : Type} (l : Listener A T C) : Nat :=
  l.perConnBufferLimitBytes

/-- `listener.SetListenerCallbacks` (lines 145-147). -/
def Listener.SetListenerCallbacks {A T C : Type} (l : Listener A T C)
    (cb : C) : Listener A T C :=
  { l with cb := some cb }

/-- `listener.Close` (lines 149-152): `l.cb.OnClose(); return
l.rawl.Close()`. The result of the raw close is an oracle; the trace
records `OnClose` first, then the raw close. -/
def Listener.Close {A T C N E : Type} (_l : Listener A T C)
    (rawlCloseResult : Option E) :
    Option E × List (ListenerAction N T) :=
  (rawlCloseResult, [.onClose, .rawlClose])

/-- `listener.listen` (lines 154-165): calls `net.ListenTCP` (oracle);
on error returns it, on success stores the raw listener in `l.rawl`. -/
def Listener.listen {A T C E : Type} (l : Listener A T C)
    (listenTCPResult : Except E T) :
    Except E (Listener A T C) :=
  match listenTCPResult with
  | .error err => .error err
  | .ok rawl => .ok { l with rawl := some rawl }

/-- `listener.accept` (lines 167-189): `rawc, err := l.rawl.Accept()`
(oracle); on error return it with no callback invocation; on success
spawn a goroutine that invokes `l.cb.OnAccept(rawc,
l.handOffRestoredDestinationConnections)` (modelled as the emitted
action) and return nil. -/
def Listener.accept {A T C N E : Type} (l : Listener A T C)
    (acceptResult : Except E N) :
    Option E × List (ListenerAction N T) :=
  match acceptResult with
  | .error err => (some err, [])
  | .ok rawc => (none, [.onAccept rawc l.handOffRestoredDestinationConnections])

/-- The startup phase of `listener.Start` (lines 74-84, up to the accept
loop, which both sides of the merge conflict in that function share): if
`l.rawl` is nil, call `listen` and return early on its error; then enter
the accept loop only when `bindToPort` is set. Returns the trace (a
`listenTCP` action exactly when `listen` ran, then `acceptLoopEntered`
when the `for` loop is reached) and the listener state at loop entry. -/
def Listener.Start {A T C N E : Type} (l : Listener A T C)
    (listenTCPResult : Except E T) :
    List (ListenerAction N T) × Listener A T C :=
  match l.rawl with
  | some _ =>
    ((if l.bindToPort then [.acceptLoopEntered] else []), l)
  | none =>
    match l.listen listenTCPResult with
    | .error _ => ([.listenTCP], l)
    | .ok lNew =>
      (.listenTCP :: (if lNew.bindToPort then [.acceptLoopEntered] else []), lNew)

/-- A state-mutating operation performed on a listener between its
construction and a getter call: `Start` (with the oracle result of its
possible `net.ListenTCP` call) or `SetListenerCallbacks`. -/
inductive ListenerOp (T C E : Type)
  | start (listenTCPResult : Except E T)
  | setCallbacks (cb : C)

/-- Apply a sequence of `Start` / `SetListenerCallbacks` calls to a
listener, keeping only the resulting state. -/
def applyOps {A T C E : Type} (l : Listener A T C) :
    List (ListenerOp T C E) → Listener A T C
  | [] => l
  | .start r :: rest => applyOps (Listener.Start (N := Unit) l r).2 rest
  | .setCallbacks cb :: rest => applyOps (l.SetListenerCallbacks cb) rest

end MosnNetwork


namespace StreamEngine

/-! ## endStream direction discipline (spec-modelled)

The repository sources under verification contain only the interface
contracts of `StreamEncoder` / `StreamDecoder` (part_000 lines 105-134
and their doc comments); the engine that enforces the endStream
discipline is not among them, so it is modelled from the spec. -/

/-- A protocol frame of the triad, as signaled through
`EncodeHeaders(_, endStream)` / `EncodeData(_, endStream)` /
`EncodeTrailers(_)` and the mirrored `OnDecode*` callbacks. Header and
data payloads are abstracted away; trailers carry no endStream flag in
the interface because they implicitly end the stream. -/
inductive Frame
  | headers (endStream : Bool)
  | dataFrame (endStream : Bool)
  | trailers
deriving DecidableEq, Repr

/-- Whether a frame signals the end of its direction: the explicit
`endStream` flag on headers and data, and always for trailers
("Encode trailers, implicitly ends the stream", part_000 line 115;
"Called with a decoded trailers frame, implicitly ends the stream",
line 132). -/
def Frame.endsStream : Frame → Bool
  | .headers e => e
  | .dataFrame e => e
  | .trailers => true

/-- The state of one direction (encode or decode) of one stream: whether
a frame carrying `endStream=true` has already been signaled. -/
structure DirectionState where
  ended : Bool
deriving DecidableEq, Repr

/-- The fresh state of a direction: no frame signaled yet. -/
def DirectionState.initial : DirectionState := { ended := false }

/-- Modelled from the spec: the encode-side endStream discipline of the
stream engine, whose implementation is not among the sources (only the
`StreamEncoder` interface is). An `EncodeHeaders` / `EncodeData` /
`EncodeTrailers` call on a direction whose end has already been signaled
is rejected with a contract-violation error (the `error` return of the
interface methods); an accepted frame marks the direction ended exactly
when it carries `endStream=true` (implicitly so for trailers). -/
def encodeFrame (s : DirectionState) (f : Frame) :
    Except String DirectionState :=
  if s.ended then .error "contract violation: encode after endStream"
  else .ok { ended := f.endsStream }

/-- Modelled from the spec: the decode-side endStream discipline of the
stream engine, whose implementation is not among the sources (only the
`StreamDecoder` interface is). The `OnDecode*` callbacks return nothing,
so delivery is modelled as an `Option`: `some` of the next state when
the callback is delivered, `none` when the engine suppresses it because
the direction already ended. -/
def deliverDecodedFrame (s : DirectionState) (f : Frame) :
    Option DirectionState :=
  if s.ended then none
  else some { ended := f.endsStream }

end StreamEngine

/-! ## Helper lemmas -/

/-- `Start` only ever touches `rawl`: the config-derived fields of the
listener state it returns are unchanged. -/
theorem MosnNetwork.Start_preserves_fields {A T C N E : Type}
    (l : MosnNetwork.Listener A T C) (r : Except E T) :
    ((MosnNetwork.Listener.Start (N := N) l r).2).name = l.name ∧
    ((MosnNetwork.Listener.Start (N := N) l r).2).localAddress = l.localAddress ∧
    ((MosnNetwork.Listener.Start (N := N) l r).2).listenerTag = l.listenerTag ∧
    ((MosnNetwork.Listener.Start (N := N) l r).2).perConnBufferLimitBytes =
      l.perConnBufferLimitBytes := by
  rcases hl : l.rawl with _ | t
  · rcases r with e | t2 <;>
      simp [MosnNetwork.Listener.Start, MosnNetwork.Listener.listen, hl]
  · simp [MosnNetwork.Listener.Start, hl]

/-- Any sequence of `Start` / `SetListenerCallbacks` calls leaves the
config-derived fields of the listener unchanged. -/
theorem MosnNetwork.applyOps_preserves_fields {A T C E : Type}
    (l : MosnNetwork.Listener A T C) (ops : List (MosnNetwork.ListenerOp T C E)) :
    (MosnNetwork.applyOps l ops).name = l.name ∧
    (MosnNetwork.applyOps l ops).localAddress = l.localAddress ∧
    (MosnNetwork.applyOps l ops).listenerTag = l.listenerTag ∧
    (MosnNetwork.applyOps l ops).perConnBufferLimitBytes =
      l.perConnBufferLimitBytes := by
  induction ops generalizing l with
  | nil => exact ⟨rfl, rfl, rfl, rfl⟩
  | cons op rest ih =>
    cases op with
    | start r =>
      have hs := MosnNetwork.Start_preserves_fields (N := Unit) l r
      have hr := ih ((MosnNetwork.Listener.Start (N := Unit) l r).2)
      simp only [MosnNetwork.applyOps]
      exact ⟨hr.1.trans hs.1, hr.2.1.trans hs.2.1, hr.2.2.1.trans hs.2.2.1,
        hr.2.2.2.trans hs.2.2.2⟩
    | setCallbacks cb =>
      have hr := ih (l.SetListenerCallbacks cb)
      simpa [MosnNetwork.applyOps, MosnNetwork.Listener.SetListenerCallbacks] using hr

/-! ## Claim theorems -/

/-- Claim C1: once any frame (headers, data, or trailers) is signaled
with endStream=true on a direction, the direction is marked ended; any
later encode call on it is rejected with the contract-violation error and
no later decode callback is delivered; and a trailers frame always ends
the direction. -/
theorem endStream_closes_direction_c1
    (s s2 : StreamEngine.DirectionState) (f g : StreamEngine.Frame)
    (hf : f.endsStream = true)
    (h : StreamEngine.encodeFrame s f = .ok s2 ∨
         StreamEngine.deliverDecodedFrame s f = some s2) :
    s2.ended = true ∧
    StreamEngine.encodeFrame s2 g =
      .error "contract violation: encode after endStream" ∧
    StreamEngine.deliverDecodedFrame s2 g = none ∧
    StreamEngine.Frame.endsStream StreamEngine.Frame.trailers = true := by
  have h2 : s2.ended = true := by
    rcases h with h | h <;> rcases s with ⟨b⟩ <;> cases b <;>
      simp [StreamEngine.encodeFrame, StreamEngine.deliverDecodedFrame] at h <;>
      simp [← h, hf]
  refine ⟨h2, ?_, ?_, rfl⟩
  · simp [StreamEngine.encodeFrame, h2]
  · simp [StreamEngine.deliverDecodedFrame, h2]

/-- Witness for C1: the trailers frame accepted on a fresh direction ends
it, after which a headers frame is rejected on encode and suppressed on
decode. -/
theorem endStream_closes_direction_c1_witness :
    (⟨true⟩ : StreamEngine.DirectionState).ended = true ∧
    StreamEngine.encodeFrame ⟨true⟩ (.headers false) =
      .error "contract violation: encode after endStream" ∧
    StreamEngine.deliverDecodedFrame ⟨true⟩ (.headers false) = none ∧
    StreamEngine.Frame.endsStream StreamEngine.Frame.trailers = true :=
  endStream_closes_direction_c1 ⟨false⟩ ⟨true⟩ .trailers (.headers false)
    (by decide) (Or.inl rfl)

/-- Claim C2: stream origination is symmetric — the client-side
`NewStream` takes a `StreamDecoder` and returns a `StreamEncoder`, the
server-side listener's `NewStream` takes a `StreamEncoder` and returns a
`StreamDecoder`, each the mirror image of the other. -/
theorem newStream_symmetry_c2 :
    MosnTypes.clientNewStreamSig.suppliedArg = MosnTypes.StreamHalf.decoder ∧
    MosnTypes.clientNewStreamSig.returned = MosnTypes.StreamHalf.encoder ∧
    MosnTypes.serverNewStreamSig.suppliedArg = MosnTypes.StreamHalf.encoder ∧
    MosnTypes.serverNewStreamSig.returned = MosnTypes.StreamHalf.decoder ∧
    MosnTypes.serverNewStreamSig.suppliedArg = MosnTypes.clientNewStreamSig.returned ∧
    MosnTypes.serverNewStreamSig.returned = MosnTypes.clientNewStreamSig.suppliedArg := by
  decide

/-- Claim C3: the three frame-emitting `StreamEncoder` methods each
return an `error`, the three `StreamDecoder` callbacks return nothing,
and `OnResetStream` (returning nothing) is a `StreamEventListener`
method — the only decode-path error report channel. -/
theorem encode_errors_decode_void_c3 :
    MosnTypes.streamEncoderFrameMethods.all
      (fun m => m.ret == MosnTypes.GoReturn.goError) = true ∧
    MosnTypes.streamDecoderMethods.all
      (fun m => m.ret == MosnTypes.GoReturn.goNone) = true ∧
    MosnTypes.streamEncoderFrameMethods.map MosnTypes.MethodSig.name =
      ["EncodeHeaders", "EncodeData", "EncodeTrailers"] ∧
    MosnTypes.streamDecoderMethods.map MosnTypes.MethodSig.name =
      ["OnDecodeHeaders", "OnDecodeData", "OnDecodeTrailers"] ∧
    MosnTypes.streamEventListenerMethods.contains ⟨"OnResetStream", .goNone⟩ = true := by
  decide

/-- Claim C4: the filter-status vocabulary is exactly the three listed
enumerations, with exactly the listed variants, pairwise distinct within
each enumeration. -/
theorem filter_status_vocabulary_c4 :
    MosnTypes.filterHeadersStatusValues = ["Continue", "StopIteration"] ∧
    MosnTypes.filterDataStatusValues =
      ["Continue", "StopIterationAndBuffer", "StopIterationAndWatermark",
       "StopIterationNoBuffer"] ∧
    MosnTypes.filterTrailersStatusValues = ["Continue", "StopIteration"] ∧
    MosnTypes.filterHeadersStatusValues.Nodup ∧
    MosnTypes.filterDataStatusValues.Nodup ∧
    MosnTypes.filterTrailersStatusValues.Nodup := by
  decide

/-- Counterexample to claim C5 as stated: the declared constant values of
the three stream-scoped reset reasons keep the `Stream` prefix and do not
match the bare variant names the spec lists. -/
theorem reset_reason_names_c5_counterexample :
    MosnTypes.StreamLocalReset = "StreamLocalReset" ∧
    ¬ MosnTypes.StreamLocalReset = "LocalReset" ∧
    MosnTypes.StreamOverflow = "StreamOverflow" ∧
    ¬ MosnTypes.StreamOverflow = "Overflow" ∧
    MosnTypes.StreamRemoteReset = "StreamRemoteReset" ∧
    ¬ MosnTypes.StreamRemoteReset = "RemoteReset" := by
  decide

/-- Claim C5 (amended): `StreamResetReason` has exactly five
pairwise-distinct declared constant values — `ConnectionTermination`,
`ConnectionFailed`, `StreamLocalReset`, `StreamOverflow`,
`StreamRemoteReset`. -/
theorem reset_reason_values_c5 :
    MosnTypes.streamResetReasonValues =
      ["ConnectionTermination", "ConnectionFailed", "StreamLocalReset",
       "StreamOverflow", "StreamRemoteReset"] ∧
    MosnTypes.streamResetReasonValues.Nodup := by
  decide

/-- Claim C6: for every connection successfully returned by the raw TCP
listener's `Accept`, `listener.accept` invokes the registered callback's
`OnAccept` exactly once (the trace is the singleton of that invocation),
passing the raw connection and the listener's configured
`handOffRestoredDestinationConnections` flag, and returns nil. -/
theorem accept_onAccept_once_c6 (A T C N E : Type)
    (l : MosnNetwork.Listener A T C) (rawc : N) :
    MosnNetwork.Listener.accept (E := E) l (Except.ok rawc) =
      (none,
       [MosnNetwork.ListenerAction.onAccept rawc
          l.handOffRestoredDestinationConnections]) :=
  rfl

/-- Claim C7: `listener.Close` performs exactly the trace `OnClose` then
raw-listener close (so `OnClose` is invoked exactly once, before the raw
close), and returns the raw close's result. -/
theorem close_onClose_order_c7 (A T C N E : Type)
    (l : MosnNetwork.Listener A T C) (r : Option E) :
    MosnNetwork.Listener.Close (N := N) l r =
      (r, [MosnNetwork.ListenerAction.onClose,
           MosnNetwork.ListenerAction.rawlClose]) :=
  rfl

/-- Claim C8: graceful restart is pure startup configuration — with a
non-nil `InheritListener` the constructed listener adopts it as `rawl`
and `Start` performs no `listen` call; with a nil `InheritListener` the
first action of `Start` is the `listen` call, before any accept-loop
entry. -/
theorem inherit_listener_start_c8 (A T C N E : Type)
    (lc : MosnNetwork.ListenerConfig A T) (t : T) (r : Except E T) :
    (lc.InheritListener = some t →
      (MosnNetwork.NewListener (C := C) lc).rawl = some t ∧
      MosnNetwork.ListenerAction.listenTCP ∉
        (MosnNetwork.Listener.Start (N := N)
          (MosnNetwork.NewListener (C := C) lc) r).1) ∧
    (lc.InheritListener = none →
      (MosnNetwork.Listener.Start (N := N)
          (MosnNetwork.NewListener (C := C) lc) r).1.head? =
        some MosnNetwork.ListenerAction.listenTCP) := by
  constructor
  · intro h
    refine ⟨by simp [MosnNetwork.NewListener, h], ?_⟩
    simp only [MosnNetwork.Listener.Start, MosnNetwork.NewListener, h]
    split <;> simp
  · intro h
    rcases r with e | t2 <;>
      simp [MosnNetwork.Listener.Start, MosnNetwork.NewListener,
        MosnNetwork.Listener.listen, h]

/-- Witness for C8: a config inheriting raw listener 7 adopts it and
its `Start` never calls listen; a config with no inherited listener has
the listen call as the first `Start` action. -/
theorem inherit_listener_start_c8_witness :
    ((MosnNetwork.NewListener (C := Unit)
        (⟨"l", 0, true, 1, 2, false, some 7⟩ :
          MosnNetwork.ListenerConfig Nat Nat)).rawl = some 7 ∧
      MosnNetwork.ListenerAction.listenTCP ∉
        (MosnNetwork.Listener.Start (N := Unit)
          (MosnNetwork.NewListener (C := Unit)
            (⟨"l", 0, true, 1, 2, false, some 7⟩ :
              MosnNetwork.ListenerConfig Nat Nat))
          ((Except.ok 5 : Except Nat Nat))).1) ∧
    (MosnNetwork.Listener.Start (N := Unit)
        (MosnNetwork.NewListener (C := Unit)
          (⟨"l", 0, true, 1, 2, false, none⟩ :
            MosnNetwork.ListenerConfig Nat Nat))
        ((Except.ok 5 : Except Nat Nat))).1.head? =
      some MosnNetwork.ListenerAction.listenTCP :=
  ⟨(inherit_listener_start_c8 Nat Nat Unit Unit Nat
      ⟨"l", 0, true, 1, 2, false, some 7⟩ 7 (Except.ok 5)).1 rfl,
   (inherit_listener_start_c8 Nat Nat Unit Unit Nat
      ⟨"l", 0, true, 1, 2, false, none⟩ 7 (Except.ok 5)).2 rfl⟩

/-- Claim C9: after `NewListener` and any sequence of intervening
`Start` / `SetListenerCallbacks` calls, the getters `Name`, `Addr`,
`ListenerTag` and `PerConnBufferLimitBytes` still report the original
config's fields. -/
theorem getters_report_config_c9 (A T C E : Type)
    (lc : MosnNetwork.ListenerConfig A T)
    (ops : List (MosnNetwork.ListenerOp T C E)) :
    (MosnNetwork.applyOps (MosnNetwork.NewListener lc) ops).Name = lc.Name ∧
    (MosnNetwork.applyOps (MosnNetwork.NewListener lc) ops).Addr = lc.Addr ∧
    (MosnNetwork.applyOps (MosnNetwork.NewListener lc) ops).ListenerTag =
      lc.ListenerTag ∧
    (MosnNetwork.applyOps (MosnNetwork.NewListener lc) ops).PerConnBufferLimitBytes =
      lc.PerConnBufferLimitBytes := by
  have h := MosnNetwork.applyOps_preserves_fields
    (MosnNetwork.NewListener (C := C) lc) ops
  refine ⟨?_, ?_, ?_, ?_⟩
  · simpa [MosnNetwork.Listener.Name, MosnNetwork.NewListener] using h.1
  · simpa [MosnNetwork.Listener.Addr, MosnNetwork.NewListener] using h.2.1
  · simpa [MosnNetwork.Listener.ListenerTag, MosnNetwork.NewListener] using h.2.2.1
  · simpa [MosnNetwork.Listener.PerConnBufferLimitBytes, MosnNetwork.NewListener]
      using h.2.2.2

/-- Claim C10: when the raw TCP listener's `Accept` fails,
`listener.accept` returns that same error and performs no `OnAccept`
callback invocation (empty trace). -/
theorem accept_error_no_callback_c10 (A T C N E : Type)
    (l : MosnNetwork.Listener A T C) (e : E) :
    MosnNetwork.Listener.accept (N := N) l (Except.error e) = (some e, []) :=
  rfl
